import Mathlib

/-!
# Verification of the trust-dns resolver adapter (src/dns/trust_dns.rs)

Shallow embedding of the lazy, concurrency-safe DNS resolver adapter:

* `Globals` models the process-wide mutable state: the `SYSTEM_CONF`
  cell (a `Mutex<Lazy<io::Result<(ResolverConfig, ResolverOpts)>>>`,
  modelled as `Option (Except IoError Config)` where `none` is an
  unforced `Lazy`), plus instrumentation counters recording how many
  times the OS configuration read and the resolver-engine construction
  routine (`AsyncResolver::new`) have been invoked.
* External effects are oracles passed as parameters: `osRead` gives the
  outcome of the k-th OS DNS configuration read, `constructO` the
  outcome of the k-th resolver-engine construction from a config, and
  `lookupO` the outcome of `lookup_ip` on a given resolver handle and
  hostname.
* `TrustDnsResolver.resolve` is embedded twice: once as a sequential
  denotation (one whole call as a function of the adapter state and the
  globals, with `PanicOr` capturing the `expect` in `new_resolver`), and
  once as a small-step interleaving semantics (`Step`) over any number
  of concurrent `resolve` tasks, in which the critical section guarded
  by the tokio mutex (lines 79-92 of the source: inspect the cell,
  construct if `Init`, store, `drop(lock)`) is one atomic step and the
  network lookup is a separate later step taken without the lock.
-/

namespace TrustDns

/-- `std::io::Error`: an error kind plus a message; `format!("{}", e)`
renders the message. -/
structure IoError where
  kind : Nat
  msg : String
deriving DecidableEq, Repr

instance {ε α : Type} [DecidableEq ε] [DecidableEq α] :
    DecidableEq (Except ε α) := fun x y =>
  match x, y with
  | Except.ok a, Except.ok b =>
      if h : a = b then isTrue (by rw [h])
      else isFalse (by intro hc; cases hc; exact h rfl)
  | Except.error a, Except.error b =>
      if h : a = b then isTrue (by rw [h])
      else isFalse (by intro hc; cases hc; exact h rfl)
  | Except.ok _, Except.error _ => isFalse (by intro hc; cases hc)
  | Except.error _, Except.ok _ => isFalse (by intro hc; cases hc)

/-- A `(ResolverConfig, ResolverOpts)` pair, abstract. -/
abbrev Config := Nat

/-- A shared resolver handle (`Arc<AsyncResolver<..>>`), identified by the
construction attempt that produced it. -/
abbrev SharedResolver := Nat

/-- The process-wide mutable state of the module, plus invocation counters
for the two external effects. -/
structure Globals where
  /-- `SYSTEM_CONF`: `none` is an unforced `Lazy` (not yet computed),
  `some r` a computed-and-cached snapshot, success or error. -/
  cache : Option (Except IoError Config)
  /-- how many times the OS DNS configuration read has run -/
  readCount : Nat
  /-- how many times `AsyncResolver::new` has run -/
  constructCount : Nat
deriving DecidableEq, Repr

/-- Modelled from the spec: `initialize_system_conf` is called by
`get_system_conf` but its definition is not in the source tree; per the
spec, `get_or_compute` "synchronously reads OS configuration and stores
the result (success or error)", so the initializer is one invocation of
the OS configuration read, here the oracle at the current read index. -/
def initialize_system_conf (osRead : Nat → Except IoError Config)
    (readCount : Nat) : Except IoError Config :=
  osRead readCount

/-- `get_system_conf`: under the `SYSTEM_CONF` lock, if no snapshot has
been computed, compute one (success or error) and store it; return a
clone of the current snapshot. -/
def get_system_conf (osRead : Nat → Except IoError Config) (g : Globals) :
    Except IoError Config × Globals :=
  match g.cache with
  | some r => (r, g)
  | none =>
      let r := initialize_system_conf osRead g.readCount
      (r, ⟨some r, g.readCount + 1, g.constructCount⟩)

/-- `reinitialize_system_conf`: under the `SYSTEM_CONF` lock, replace the
cell with a fresh unforced `Lazy`, so the next access re-reads the OS
configuration. -/
def reinitialize_system_conf (g : Globals) : Globals :=
  ⟨none, g.readCount, g.constructCount⟩

/-- The adapter's guarded state cell: `enum State { Init, Ready(SharedResolver) }`. -/
inductive State where
  | Init : State
  | Ready : SharedResolver → State
deriving DecidableEq, Repr

/-- `TrustDnsResolver`: wrapper holding the guarded state cell. -/
structure TrustDnsResolver where
  state : State
deriving DecidableEq, Repr

/-- `TrustDnsResolver::new`: force the system-conf snapshot; on error,
return an `io::Error` with the same kind and a wrapping message; on
success, record state `Init` without constructing the resolver engine. -/
def TrustDnsResolver.new (osRead : Nat → Except IoError Config)
    (g : Globals) : Except IoError TrustDnsResolver × Globals :=
  match get_system_conf osRead g with
  | (Except.error e, g1) =>
      (Except.error ⟨e.kind, "error reading DNS system conf: " ++ e.msg⟩, g1)
  | (Except.ok _, g1) => (Except.ok ⟨State.Init⟩, g1)

/-- An IPv4 address (the `IpAddr` values the claims exercise). -/
structure IpAddr where
  o1 : Nat
  o2 : Nat
  o3 : Nat
  o4 : Nat
deriving DecidableEq, Repr

/-- `std::net::SocketAddr`: an IP address and a port. -/
structure SocketAddr where
  ip : IpAddr
  port : Nat
deriving DecidableEq, Repr

/-- `SocketAddr::new(ip, port)`. -/
def SocketAddr.new (ip : IpAddr) (port : Nat) : SocketAddr :=
  ⟨ip, port⟩

/-- `SocketAddrs`: the single-pass wrapper around one lookup's remaining
IP results (`LookupIpIntoIter`). -/
structure SocketAddrs where
  iter : List IpAddr
deriving DecidableEq, Repr

/-- `Iterator::next` for `SocketAddrs`: map the next resolved IP, if any,
to a socket address with port `0`, consuming it. -/
def SocketAddrs.next (s : SocketAddrs) : Option (SocketAddr × SocketAddrs) :=
  match s.iter with
  | [] => none
  | ip :: rest => some (SocketAddr.new ip 0, ⟨rest⟩)

/-- Collect everything the iterator yields from a remaining-IP list. -/
def drainFrom : List IpAddr → List SocketAddr
  | [] => []
  | ip :: rest => SocketAddr.new ip 0 :: drainFrom rest

/-- Run the iterator to exhaustion, collecting everything it yields. -/
def SocketAddrs.drain (s : SocketAddrs) : List SocketAddr :=
  drainFrom s.iter

/-- The result of a computation that may panic (`expect`). -/
inductive PanicOr (α : Type) where
  | panicked : String → PanicOr α
  | value : α → PanicOr α
deriving DecidableEq, Repr

/-- The panic message of the `expect` in `new_resolver`. -/
def newResolverPanicMsg : String :=
  "can't construct TrustDnsResolver if SYSTEM_CONF is error"

/-- `new_resolver_with_config`: one invocation of `AsyncResolver::new`
(construction attempt `k`) on the given config, the result shared via
`Arc::new`. Errors box unchanged through `?`. -/
def new_resolver_with_config (constructO : Config → Nat → Except Nat SharedResolver)
    (cfg : Config) (k : Nat) : Except Nat SharedResolver :=
  constructO cfg k

/-- `new_resolver`: force the system-conf snapshot, `expect` it to be
`Ok` (panicking otherwise), and construct a resolver from the cloned
config. -/
def new_resolver (osRead : Nat → Except IoError Config)
    (constructO : Config → Nat → Except Nat SharedResolver) (g : Globals) :
    PanicOr (Except Nat SharedResolver × Globals) :=
  match get_system_conf osRead g with
  | (Except.error _, _) => PanicOr.panicked newResolverPanicMsg
  | (Except.ok cfg, g1) =>
      PanicOr.value (new_resolver_with_config constructO cfg g1.constructCount,
        ⟨g1.cache, g1.readCount, g1.constructCount + 1⟩)

/-- The error a `resolve` call surfaces (`BoxError`): either a boxed
resolver-construction error or a boxed `lookup_ip` error. -/
inductive ResolveErr where
  | construct : Nat → ResolveErr
  | lookup : Nat → ResolveErr
deriving DecidableEq, Repr

/-- `TrustDnsResolver::resolve`, sequential denotation of one whole call:
lock the state cell; if `Init`, run `new_resolver` (propagating its error
without storing anything, or panicking as it panics) and store the handle
as `Ready`; clone the handle; drop the lock; run `lookup_ip` on the
handle and wrap the resulting IPs as `SocketAddrs`. Returns the call's
result together with the cell's new contents and the new globals. -/
def TrustDnsResolver.resolve (osRead : Nat → Except IoError Config)
    (constructO : Config → Nat → Except Nat SharedResolver)
    (lookupO : SharedResolver → String → Except Nat (List IpAddr))
    (name : String) (st : State) (g : Globals) :
    PanicOr (Except ResolveErr SocketAddrs × State × Globals) :=
  match st with
  | State.Init =>
      match new_resolver osRead constructO g with
      | PanicOr.panicked m => PanicOr.panicked m
      | PanicOr.value (Except.error e, g1) =>
          PanicOr.value (Except.error (ResolveErr.construct e), State.Init, g1)
      | PanicOr.value (Except.ok r, g1) =>
          match lookupO r name with
          | Except.error e =>
              PanicOr.value (Except.error (ResolveErr.lookup e), State.Ready r, g1)
          | Except.ok ips =>
              PanicOr.value (Except.ok ⟨ips⟩, State.Ready r, g1)
  | State.Ready r =>
      match lookupO r name with
      | Except.error e =>
          PanicOr.value (Except.error (ResolveErr.lookup e), State.Ready r, g)
      | Except.ok ips =>
          PanicOr.value (Except.ok ⟨ips⟩, State.Ready r, g)

/-! ## Small-step interleaving semantics of concurrent `resolve` calls

Each task is one in-flight `resolve` call on the same adapter. The tokio
mutex around the state cell serializes the check-and-construct section;
the lock is dropped before `lookup_ip`, which is a separate step. -/

/-- The control point of one in-flight `resolve` call. -/
inductive TPhase where
  /-- before `state.lock().await` -/
  | pending : TPhase
  /-- holding the lock, about to inspect the cell -/
  | locked : TPhase
  /-- lock dropped, awaiting `lookup_ip` on handle `r` -/
  | lookingUp : SharedResolver → TPhase
  /-- `lookup_ip` returned; the call observed handle `r` -/
  | finished : SharedResolver → TPhase
  /-- `new_resolver` failed, the call returned its error -/
  | failed : TPhase
deriving DecidableEq, Repr

/-- The shared state seen by `n` concurrent `resolve` tasks: the adapter's
cell, the mutex owner, the number of construction attempts so far, and
each task's control point. -/
structure CState (n : Nat) where
  cell : State
  lock : Option (Fin n)
  constructCount : Nat
  tasks : Fin n → TPhase

/-- The state right after adapter construction, with `n` `resolve` calls
about to start: cell `Init`, lock free, no construction attempted. -/
def initState (n : Nat) : CState n :=
  ⟨State.Init, none, 0, fun _ => TPhase.pending⟩

/-- One atomic step of the interleaved execution. `constructO` gives the
outcome of the k-th construction attempt. The critical section (source
lines 79-92: lock, match on the cell, construct and store when `Init`,
drop the lock) is a single atomic step; `lookup_ip` happens in a later
step, after the lock is released. -/
inductive Step (constructO : Nat → Except Nat SharedResolver) :
    {n : Nat} → CState n → CState n → Prop where
  /-- `state.lock().await` completes only while no task holds the lock. -/
  | acquire {n} (s : CState n) (i : Fin n) :
      s.tasks i = TPhase.pending → s.lock = none →
      Step constructO s
        ⟨s.cell, some i, s.constructCount, Function.update s.tasks i TPhase.locked⟩
  /-- cell is `Init` and `new_resolver` succeeds: store `Ready`, drop the
  lock, proceed to the lookup with the fresh handle. -/
  | constructOk {n} (s : CState n) (i : Fin n) (h : SharedResolver) :
      s.tasks i = TPhase.locked → s.lock = some i → s.cell = State.Init →
      constructO s.constructCount = Except.ok h →
      Step constructO s
        ⟨State.Ready h, none, s.constructCount + 1,
          Function.update s.tasks i (TPhase.lookingUp h)⟩
  /-- cell is `Init` and `new_resolver` fails: the cell is left `Init`,
  the lock is dropped, the call returns the error. -/
  | constructFail {n} (s : CState n) (i : Fin n) (e : Nat) :
      s.tasks i = TPhase.locked → s.lock = some i → s.cell = State.Init →
      constructO s.constructCount = Except.error e →
      Step constructO s
        ⟨State.Init, none, s.constructCount + 1,
          Function.update s.tasks i TPhase.failed⟩
  /-- cell is already `Ready`: clone the stored handle, drop the lock,
  proceed to the lookup; no construction. -/
  | readyReuse {n} (s : CState n) (i : Fin n) (h : SharedResolver) :
      s.tasks i = TPhase.locked → s.lock = some i → s.cell = State.Ready h →
      Step constructO s
        ⟨s.cell, none, s.constructCount,
          Function.update s.tasks i (TPhase.lookingUp h)⟩
  /-- `lookup_ip` returns; needs nothing from the lock or the cell. -/
  | lookupDone {n} (s : CState n) (i : Fin n) (h : SharedResolver) :
      s.tasks i = TPhase.lookingUp h →
      Step constructO s
        ⟨s.cell, s.lock, s.constructCount,
          Function.update s.tasks i (TPhase.finished h)⟩

/-- Reachability under interleaved `resolve` steps. -/
def Reach (constructO : Nat → Except Nat SharedResolver) {n : Nat}
    (s t : CState n) : Prop :=
  Relation.ReflTransGen (Step constructO) s t

/-- The structural invariant of the interleaving: the lock owner is
always at the check point, and any task at or past its lookup observed
exactly the handle stored in the cell. -/
def Inv {n : Nat} (s : CState n) : Prop :=
  (∀ i : Fin n, s.lock = some i → s.tasks i = TPhase.locked) ∧
  (∀ (i : Fin n) (h : SharedResolver),
    s.tasks i = TPhase.lookingUp h ∨ s.tasks i = TPhase.finished h →
    s.cell = State.Ready h)

/-- Construction-count invariant (under an always-succeeding construction
oracle): either nothing was constructed yet and the cell is `Init`, or
exactly one construction happened and the cell holds its handle. -/
def CountInv {n : Nat} (s : CState n) : Prop :=
  (s.cell = State.Init ∧ s.constructCount = 0) ∨
  (∃ h : SharedResolver, s.cell = State.Ready h ∧ s.constructCount = 1)

/-- A construction oracle whose every attempt succeeds with handle `5`. -/
def okOracle : Nat → Except Nat SharedResolver :=
  fun _ => Except.ok 5

/-- One `resolve` task, alone: it has taken the lock. -/
def soloLocked : CState 1 :=
  ⟨State.Init, some 0, 0, Function.update (initState 1).tasks 0 TPhase.locked⟩

/-- The solo task constructed handle `5`, stored it and dropped the lock. -/
def soloLooking : CState 1 :=
  ⟨State.Ready 5, none, soloLocked.constructCount + 1,
    Function.update soloLocked.tasks 0 (TPhase.lookingUp 5)⟩

/-- The solo task's lookup returned: a complete one-task run. -/
def soloFinished : CState 1 :=
  ⟨soloLooking.cell, soloLooking.lock, soloLooking.constructCount,
    Function.update soloLooking.tasks 0 (TPhase.finished 5)⟩

/-- Two `resolve` tasks: task `0` has taken the lock. -/
def duoLocked0 : CState 2 :=
  ⟨State.Init, some 0, 0, Function.update (initState 2).tasks 0 TPhase.locked⟩

/-- Task `0` constructed handle `5`, stored it, dropped the lock, and is
now blocked in its network lookup. -/
def duoLooking0 : CState 2 :=
  ⟨State.Ready 5, none, duoLocked0.constructCount + 1,
    Function.update duoLocked0.tasks 0 (TPhase.lookingUp 5)⟩

/-- With task `0` still blocked in its lookup, task `1` takes the lock. -/
def duoLocked1 : CState 2 :=
  ⟨duoLooking0.cell, some 1, duoLooking0.constructCount,
    Function.update duoLooking0.tasks 1 TPhase.locked⟩

/-- Task `1` finds the cell `Ready`, reuses the handle, drops the lock. -/
def duoLooking1 : CState 2 :=
  ⟨duoLocked1.cell, none, duoLocked1.constructCount,
    Function.update duoLocked1.tasks 1 (TPhase.lookingUp 5)⟩

/-- Task `1` completed its lookup while task `0` never advanced past its
own (blocked) lookup. -/
def blockedState : CState 2 :=
  ⟨duoLooking1.cell, duoLooking1.lock, duoLooking1.constructCount,
    Function.update duoLooking1.tasks 1 (TPhase.finished 5)⟩

/-- The two IPs of the spec's iterator example. -/
def exampleIps : List IpAddr :=
  [⟨10, 0, 0, 1⟩, ⟨10, 0, 0, 2⟩]

/-- A concrete `io::Error` for witnesses. -/
def boomErr : IoError :=
  ⟨2, "boom"⟩

/-- An OS-config read that always fails with `boomErr`. -/
def badRead : Nat → Except IoError Config :=
  fun _ => Except.error boomErr

/-- An OS-config read that always succeeds with config `7`. -/
def goodRead : Nat → Except IoError Config :=
  fun _ => Except.ok 7

/-- An OS-config read whose first invocation succeeds and whose later
invocations fail: the re-read after an invalidation goes bad. -/
def flipRead : Nat → Except IoError Config :=
  fun k => if k = 0 then Except.ok 7 else Except.error boomErr

/-- Fresh globals: nothing cached, nothing invoked yet. -/
def gEmpty : Globals :=
  ⟨none, 0, 0⟩

/-- Globals whose snapshot is already computed and `Ok 7`. -/
def gCachedOk : Globals :=
  ⟨some (Except.ok 7), 1, 0⟩

/-- A construction routine whose k-th attempt fails with error `k + 10`. -/
def constructBad : Config → Nat → Except Nat SharedResolver :=
  fun _ k => Except.error (k + 10)

/-- A construction routine that always succeeds with handle `5`. -/
def constructGood : Config → Nat → Except Nat SharedResolver :=
  fun _ _ => Except.ok 5

/-- A lookup that resolves every hostname to the example IPs. -/
def lookupGood : SharedResolver → String → Except Nat (List IpAddr) :=
  fun _ _ => Except.ok exampleIps

/-- A lookup that always fails with error `42`. -/
def lookupBad : SharedResolver → String → Except Nat (List IpAddr) :=
  fun _ _ => Except.error 42

theorem inv_initState (n : Nat) : Inv (initState n) := by
  constructor
  · intro i hi
    simp [initState] at hi
  · intro i h hi
    simp [initState] at hi

theorem update_eq_cases {n : Nat} (f : Fin n → TPhase) (i j : Fin n)
    (v p : TPhase) (hj : Function.update f i v j = p) :
    (j = i ∧ v = p) ∨ (j ≠ i ∧ f j = p) := by
  by_cases hji : j = i
  · subst hji
    rw [Function.update_same] at hj
    exact Or.inl ⟨rfl, hj⟩
  · rw [Function.update_noteq hji] at hj
    exact Or.inr ⟨hji, hj⟩

theorem inv_step {constructO : Nat → Except Nat SharedResolver} {n : Nat}
    {s t : CState n} (hs : Inv s) (hst : Step constructO s t) : Inv t := by
  obtain ⟨hlock, hobs⟩ := hs
  cases hst with
  | acquire i ht hl =>
      refine ⟨fun j hj => ?_, fun j h hj => ?_⟩
      · have hij : i = j := Option.some.inj hj
        subst hij
        exact Function.update_same i TPhase.locked s.tasks
      · rcases hj with hj | hj
        · rcases update_eq_cases s.tasks i j _ _ hj with ⟨_, hv⟩ | ⟨_, hv⟩
          · cases hv
          · exact hobs j h (Or.inl hv)
        · rcases update_eq_cases s.tasks i j _ _ hj with ⟨_, hv⟩ | ⟨_, hv⟩
          · cases hv
          · exact hobs j h (Or.inr hv)
  | constructOk i h ht hl hc hok =>
      refine ⟨fun j hj => Option.noConfusion hj, fun j h' hj => ?_⟩
      rcases hj with hj | hj
      · rcases update_eq_cases s.tasks i j _ _ hj with ⟨_, hv⟩ | ⟨_, hv⟩
        · injection hv with hh
          rw [hh]
        · have hcell := hobs j h' (Or.inl hv)
          rw [hc] at hcell
          cases hcell
      · rcases update_eq_cases s.tasks i j _ _ hj with ⟨_, hv⟩ | ⟨_, hv⟩
        · cases hv
        · have hcell := hobs j h' (Or.inr hv)
          rw [hc] at hcell
          cases hcell
  | constructFail i e ht hl hc herr =>
      refine ⟨fun j hj => Option.noConfusion hj, fun j h' hj => ?_⟩
      rcases hj with hj | hj
      · rcases update_eq_cases s.tasks i j _ _ hj with ⟨_, hv⟩ | ⟨_, hv⟩
        · cases hv
        · have hcell := hobs j h' (Or.inl hv)
          rw [hc] at hcell
          cases hcell
      · rcases update_eq_cases s.tasks i j _ _ hj with ⟨_, hv⟩ | ⟨_, hv⟩
        · cases hv
        · have hcell := hobs j h' (Or.inr hv)
          rw [hc] at hcell
          cases hcell
  | readyReuse i h ht hl hc =>
      refine ⟨fun j hj => Option.noConfusion hj, fun j h' hj => ?_⟩
      rcases hj with hj | hj
      · rcases update_eq_cases s.tasks i j _ _ hj with ⟨_, hv⟩ | ⟨_, hv⟩
        · injection hv with hh
          rw [← hh]
          exact hc
        · exact hobs j h' (Or.inl hv)
      · rcases update_eq_cases s.tasks i j _ _ hj with ⟨_, hv⟩ | ⟨_, hv⟩
        · cases hv
        · exact hobs j h' (Or.inr hv)
  | lookupDone i h ht =>
      refine ⟨fun j hj => ?_, fun j h' hj => ?_⟩
      · have hjl := hlock j hj
        by_cases hji : j = i
        · subst hji
          rw [ht] at hjl
          cases hjl
        · show Function.update s.tasks i (TPhase.finished h) j = TPhase.locked
          rw [Function.update_noteq hji]
          exact hjl
      · rcases hj with hj | hj
        · rcases update_eq_cases s.tasks i j _ _ hj with ⟨_, hv⟩ | ⟨_, hv⟩
          · cases hv
          · exact hobs j h' (Or.inl hv)
        · rcases update_eq_cases s.tasks i j _ _ hj with ⟨_, hv⟩ | ⟨_, hv⟩
          · injection hv with hh
            rw [← hh]
            exact hobs i h (Or.inl ht)
          · exact hobs j h' (Or.inr hv)

theorem inv_reach {constructO : Nat → Except Nat SharedResolver} {n : Nat}
    {s : CState n} (hr : Reach constructO (initState n) s) : Inv s := by
  induction hr with
  | refl => exact inv_initState n
  | tail _ hstep ih => exact inv_step ih hstep

theorem countInv_step {constructO : Nat → Except Nat SharedResolver}
    (hok : ∀ k, ∃ h, constructO k = Except.ok h) {n : Nat}
    {s t : CState n} (hs : CountInv s) (hst : Step constructO s t) :
    CountInv t := by
  cases hst with
  | acquire i ht hl => exact hs
  | constructOk i h ht hl hc hokc =>
      rcases hs with ⟨hcell, hcnt⟩ | ⟨h', hcell, _⟩
      · exact Or.inr ⟨h, rfl, by rw [hcnt]⟩
      · rw [hc] at hcell
        cases hcell
  | constructFail i e ht hl hc herr =>
      obtain ⟨h, hh⟩ := hok s.constructCount
      rw [herr] at hh
      cases hh
  | readyReuse i h ht hl hc => exact hs
  | lookupDone i h ht => exact hs

theorem countInv_reach {constructO : Nat → Except Nat SharedResolver}
    (hok : ∀ k, ∃ h, constructO k = Except.ok h) {n : Nat}
    {s : CState n} (hr : Reach constructO (initState n) s) : CountInv s := by
  induction hr with
  | refl => exact Or.inl ⟨rfl, rfl⟩
  | tail _ hstep ih => exact countInv_step hok ih hstep

theorem ready_stable_step {constructO : Nat → Except Nat SharedResolver}
    {n : Nat} {s t : CState n} (hst : Step constructO s t)
    (h : SharedResolver) (hc : s.cell = State.Ready h) :
    t.cell = State.Ready h ∧ t.constructCount = s.constructCount := by
  cases hst with
  | acquire i ht hl => exact ⟨hc, rfl⟩
  | constructOk i h' ht hl hcell hokc =>
      rw [hcell] at hc
      cases hc
  | constructFail i e ht hl hcell herr =>
      rw [hcell] at hc
      cases hc
  | readyReuse i h' ht hl hcell => exact ⟨hc, rfl⟩
  | lookupDone i h' ht => exact ⟨hc, rfl⟩

theorem reach_soloFinished : Reach okOracle (initState 1) soloFinished :=
  Relation.ReflTransGen.tail
    (Relation.ReflTransGen.tail
      (Relation.ReflTransGen.tail Relation.ReflTransGen.refl
        (Step.acquire (initState 1) 0 rfl rfl))
      (Step.constructOk soloLocked 0 5 rfl rfl rfl rfl))
    (Step.lookupDone soloLooking 0 5 rfl)

theorem reach_blockedState : Reach okOracle (initState 2) blockedState :=
  Relation.ReflTransGen.tail
    (Relation.ReflTransGen.tail
      (Relation.ReflTransGen.tail
        (Relation.ReflTransGen.tail
          (Relation.ReflTransGen.tail Relation.ReflTransGen.refl
            (Step.acquire (initState 2) 0 rfl rfl))
          (Step.constructOk duoLocked0 0 5 rfl rfl rfl rfl))
        (Step.acquire duoLooking0 1 rfl rfl))
      (Step.readyReuse duoLocked1 1 5 rfl rfl rfl))
    (Step.lookupDone duoLooking1 1 5 rfl)

theorem get_system_conf_cached (osRead : Nat → Except IoError Config)
    (g : Globals) (r : Except IoError Config) (h : g.cache = some r) :
    get_system_conf osRead g = (r, g) := by
  unfold get_system_conf
  rw [h]

theorem get_system_conf_compute (osRead : Nat → Except IoError Config)
    (g : Globals) (h : g.cache = none) :
    get_system_conf osRead g =
      (osRead g.readCount,
        ⟨some (osRead g.readCount), g.readCount + 1, g.constructCount⟩) := by
  unfold get_system_conf
  rw [h]
  rfl

theorem get_system_conf_constructCount (osRead : Nat → Except IoError Config)
    (g : Globals) :
    (get_system_conf osRead g).2.constructCount = g.constructCount := by
  unfold get_system_conf
  cases hg : g.cache with
  | none => rfl
  | some r => rfl

theorem drainFrom_eq_map (l : List IpAddr) :
    drainFrom l = l.map (fun ip => SocketAddr.new ip 0) := by
  induction l with
  | nil => rfl
  | cons ip rest ih =>
      unfold drainFrom
      rw [ih]
      rfl

theorem resolve_init_construct_error (osRead : Nat → Except IoError Config)
    (constructO : Config → Nat → Except Nat SharedResolver)
    (lookupO : SharedResolver → String → Except Nat (List IpAddr))
    (name : String) (g : Globals) (cfg : Config) (e : Nat)
    (hc : g.cache = some (Except.ok cfg))
    (h1 : constructO cfg g.constructCount = Except.error e) :
    TrustDnsResolver.resolve osRead constructO lookupO name State.Init g =
      PanicOr.value (Except.error (ResolveErr.construct e), State.Init,
        ⟨g.cache, g.readCount, g.constructCount + 1⟩) := by
  simp [TrustDnsResolver.resolve, new_resolver, new_resolver_with_config,
    get_system_conf, hc, h1]

/-! ## The claims -/

/-- C6: a successful lookup's address sequence yields one `SocketAddr`
per resolved IP, in order, pairing each IP with port `0`, and is
exhausted after the last element; on `[10.0.0.1, 10.0.0.2]` it yields
exactly `10.0.0.1:0` then `10.0.0.2:0` and then nothing. -/
theorem socket_addrs_iteration :
    (∀ (ip : IpAddr) (rest : List IpAddr),
      SocketAddrs.next ⟨ip :: rest⟩ = some (SocketAddr.new ip 0, ⟨rest⟩)) ∧
    SocketAddrs.next ⟨[]⟩ = none ∧
    (∀ ips : List IpAddr,
      SocketAddrs.drain ⟨ips⟩ = ips.map (fun ip => SocketAddr.new ip 0)) ∧
    SocketAddrs.next ⟨exampleIps⟩ =
      some (⟨⟨10, 0, 0, 1⟩, 0⟩, ⟨[⟨10, 0, 0, 2⟩]⟩) ∧
    SocketAddrs.next ⟨[⟨10, 0, 0, 2⟩]⟩ = some (⟨⟨10, 0, 0, 2⟩, 0⟩, ⟨[]⟩) ∧
    SocketAddrs.drain ⟨exampleIps⟩ =
      [⟨⟨10, 0, 0, 1⟩, 0⟩, ⟨⟨10, 0, 0, 2⟩, 0⟩] :=
  ⟨fun _ _ => rfl, rfl, fun ips => drainFrom_eq_map ips, rfl, rfl, rfl⟩

/-- C5: `TrustDnsResolver::new` returns `Ok` iff forcing the cached
system-conf snapshot succeeds; on success the adapter's state is `Init`
and no resolver-engine construction happened; on error no construction
happened either; the globals end exactly as `get_system_conf` leaves
them. -/
theorem new_validates_config_without_construction
    (osRead : Nat → Except IoError Config) (g : Globals) :
    ((∃ a, (TrustDnsResolver.new osRead g).1 = Except.ok a) ↔
      (∃ c, (get_system_conf osRead g).1 = Except.ok c)) ∧
    (∀ a, (TrustDnsResolver.new osRead g).1 = Except.ok a →
      a.state = State.Init) ∧
    (TrustDnsResolver.new osRead g).2 = (get_system_conf osRead g).2 ∧
    (TrustDnsResolver.new osRead g).2.constructCount = g.constructCount := by
  have hcc := get_system_conf_constructCount osRead g
  rcases hget : get_system_conf osRead g with ⟨r, g1⟩
  rw [hget] at hcc
  cases r with
  | error e =>
      refine ⟨?_, ?_, ?_, ?_⟩
      · constructor
        · rintro ⟨a, ha⟩
          rw [TrustDnsResolver.new, hget] at ha
          cases ha
        · rintro ⟨c, hc⟩
          cases hc
      · intro a ha
        rw [TrustDnsResolver.new, hget] at ha
        cases ha
      · rw [TrustDnsResolver.new, hget]
      · rw [TrustDnsResolver.new, hget]
        exact hcc
  | ok c =>
      refine ⟨?_, ?_, ?_, ?_⟩
      · constructor
        · intro _
          exact ⟨c, rfl⟩
        · intro _
          exact ⟨⟨State.Init⟩, by rw [TrustDnsResolver.new, hget]⟩
      · intro a ha
        rw [TrustDnsResolver.new, hget] at ha
        cases ha
        rfl
      · rw [TrustDnsResolver.new, hget]
      · rw [TrustDnsResolver.new, hget]
        exact hcc

/-- Witness for C5: on fresh globals with a failing OS read, `new`
errors; with a succeeding read, `new` yields an `Init` adapter and the
construction counter is untouched. -/
theorem new_validates_config_witness :
    ¬(∃ a, (TrustDnsResolver.new badRead gEmpty).1 = Except.ok a) ∧
    (TrustDnsResolver.new goodRead gEmpty).2.constructCount = 0 ∧
    (∀ a, (TrustDnsResolver.new goodRead gEmpty).1 = Except.ok a →
      a.state = State.Init) := by
  refine ⟨?_, ?_, ?_⟩
  · intro hex
    obtain ⟨c, hc⟩ :=
      (new_validates_config_without_construction badRead gEmpty).1.mp hex
    cases hc
  · exact (new_validates_config_without_construction goodRead gEmpty).2.2.2
  · exact (new_validates_config_without_construction goodRead gEmpty).2.1

/-- C7: a failing first OS-config read is cached as the snapshot; every
later `get_system_conf` returns that same cached error with the globals
untouched (in particular the read is not re-invoked: the read counter
stays put), until `reinitialize_system_conf`, after which the next
`get_system_conf` does re-invoke the read. -/
theorem config_error_cached_until_invalidation
    (osRead : Nat → Except IoError Config) (g : Globals) (e : IoError)
    (h0 : g.cache = none) (hf : osRead g.readCount = Except.error e) :
    get_system_conf osRead g =
      (Except.error e,
        ⟨some (Except.error e), g.readCount + 1, g.constructCount⟩) ∧
    (∀ g' : Globals, g'.cache = some (Except.error e) →
      get_system_conf osRead g' = (Except.error e, g')) ∧
    (∀ g' : Globals, g'.cache = some (Except.error e) →
      (get_system_conf osRead (reinitialize_system_conf g')).2.readCount =
        g'.readCount + 1) := by
  refine ⟨?_, ?_, ?_⟩
  · rw [get_system_conf_compute osRead g h0, hf]
  · intro g' hg'
    exact get_system_conf_cached osRead g' _ hg'
  · intro g' hg'
    rw [get_system_conf_compute osRead (reinitialize_system_conf g') rfl]
    rfl

/-- Witness for C7 at a concrete failing environment. -/
theorem config_error_cached_witness :
    get_system_conf badRead gEmpty =
      (Except.error boomErr, ⟨some (Except.error boomErr), 1, 0⟩) ∧
    get_system_conf badRead ⟨some (Except.error boomErr), 1, 0⟩ =
      (Except.error boomErr, ⟨some (Except.error boomErr), 1, 0⟩) ∧
    (get_system_conf badRead
      (reinitialize_system_conf ⟨some (Except.error boomErr), 1, 0⟩)).2.readCount = 2 := by
  obtain ⟨h1, h2, h3⟩ :=
    config_error_cached_until_invalidation badRead gEmpty boomErr rfl rfl
  exact ⟨h1, h2 ⟨some (Except.error boomErr), 1, 0⟩ rfl,
    h3 ⟨some (Except.error boomErr), 1, 0⟩ rfl⟩

/-- C3: a `resolve` call whose resolver construction fails returns that
construction error with the state cell still `Init` (the error is not
cached on the adapter), and a subsequent `resolve` call invokes the
construction routine again (the attempt counter advances and the next
attempt's outcome is consulted). -/
theorem construct_error_not_cached
    (osRead : Nat → Except IoError Config)
    (constructO : Config → Nat → Except Nat SharedResolver)
    (lookupO : SharedResolver → String → Except Nat (List IpAddr))
    (name : String) (g : Globals) (cfg : Config) (e1 e2 : Nat)
    (hc : g.cache = some (Except.ok cfg))
    (h1 : constructO cfg g.constructCount = Except.error e1)
    (h2 : constructO cfg (g.constructCount + 1) = Except.error e2) :
    TrustDnsResolver.resolve osRead constructO lookupO name State.Init g =
      PanicOr.value (Except.error (ResolveErr.construct e1), State.Init,
        ⟨g.cache, g.readCount, g.constructCount + 1⟩) ∧
    TrustDnsResolver.resolve osRead constructO lookupO name State.Init
        ⟨g.cache, g.readCount, g.constructCount + 1⟩ =
      PanicOr.value (Except.error (ResolveErr.construct e2), State.Init,
        ⟨g.cache, g.readCount, g.constructCount + 2⟩) := by
  constructor
  · exact resolve_init_construct_error osRead constructO lookupO name g cfg e1 hc h1
  · exact resolve_init_construct_error osRead constructO lookupO name
      ⟨g.cache, g.readCount, g.constructCount + 1⟩ cfg e2 hc h2

/-- Witness for C3: two consecutive failing `resolve` calls on cached-Ok
globals, each consulting the construction routine anew. -/
theorem construct_error_not_cached_witness :
    TrustDnsResolver.resolve goodRead constructBad lookupGood "example.com"
        State.Init gCachedOk =
      PanicOr.value (Except.error (ResolveErr.construct 10), State.Init,
        ⟨some (Except.ok 7), 1, 1⟩) ∧
    TrustDnsResolver.resolve goodRead constructBad lookupGood "example.com"
        State.Init ⟨some (Except.ok 7), 1, 1⟩ =
      PanicOr.value (Except.error (ResolveErr.construct 11), State.Init,
        ⟨some (Except.ok 7), 1, 2⟩) :=
  construct_error_not_cached goodRead constructBad lookupGood "example.com"
    gCachedOk 7 10 11 rfl rfl rfl

/-- C8: `reinitialize_system_conf` only resets the snapshot to
not-yet-computed — read and construction counters are untouched — so the
next `get_system_conf` re-invokes the OS read; and a `resolve` on an
already-`Ready` adapter after the invalidation still performs its lookup
through the old stored handle, leaving state and globals unchanged. -/
theorem reinitialize_only_resets_cache
    (osRead : Nat → Except IoError Config)
    (constructO : Config → Nat → Except Nat SharedResolver)
    (lookupO : SharedResolver → String → Except Nat (List IpAddr))
    (name : String) (g : Globals) (r : SharedResolver) :
    (reinitialize_system_conf g).cache = none ∧
    (reinitialize_system_conf g).readCount = g.readCount ∧
    (reinitialize_system_conf g).constructCount = g.constructCount ∧
    (get_system_conf osRead (reinitialize_system_conf g)).1 =
      osRead g.readCount ∧
    (get_system_conf osRead (reinitialize_system_conf g)).2.readCount =
      g.readCount + 1 ∧
    (∀ ips, lookupO r name = Except.ok ips →
      TrustDnsResolver.resolve osRead constructO lookupO name
          (State.Ready r) (reinitialize_system_conf g) =
        PanicOr.value (Except.ok ⟨ips⟩, State.Ready r,
          reinitialize_system_conf g)) := by
  refine ⟨rfl, rfl, rfl, ?_, ?_, ?_⟩
  · rw [get_system_conf_compute osRead (reinitialize_system_conf g) rfl]
    rfl
  · rw [get_system_conf_compute osRead (reinitialize_system_conf g) rfl]
    rfl
  · intro ips hips
    rw [TrustDnsResolver.resolve, hips]

/-- Witness for C8: invalidating cached-Ok globals and resolving on a
`Ready 5` adapter still uses handle `5` and returns the example IPs. -/
theorem reinitialize_only_resets_cache_witness :
    (reinitialize_system_conf gCachedOk).cache = none ∧
    (get_system_conf goodRead (reinitialize_system_conf gCachedOk)).2.readCount = 2 ∧
    TrustDnsResolver.resolve goodRead constructGood lookupGood "example.com"
        (State.Ready 5) (reinitialize_system_conf gCachedOk) =
      PanicOr.value (Except.ok ⟨exampleIps⟩, State.Ready 5,
        reinitialize_system_conf gCachedOk) := by
  obtain ⟨ha, -, -, -, hb, hcl⟩ :=
    reinitialize_only_resets_cache goodRead constructGood lookupGood
      "example.com" gCachedOk 5
  exact ⟨ha, hb, hcl exampleIps rfl⟩

/-- C9 counterexample: when the OS config read fails with kind `2` and
message `"boom"`, `TrustDnsResolver::new` does not return that error
unaltered — it returns one whose message is wrapped as
`"error reading DNS system conf: boom"`. -/
theorem new_wraps_config_error_cex :
    (TrustDnsResolver.new badRead gEmpty).1 =
      Except.error ⟨2, "error reading DNS system conf: boom"⟩ ∧
    (TrustDnsResolver.new badRead gEmpty).1 ≠ Except.error boomErr := by
  refine ⟨rfl, ?_⟩
  intro hc
  have hmsg : ("boom" : String) = "error reading DNS system conf: boom" :=
    congrArg IoError.msg (Except.error.inj hc).symm
  exact absurd hmsg (by decide)

/-- C9 amended: lookup and construction errors inside `resolve` are
returned to the caller unaltered in content (merely boxed), with no
retry; but the config-read error surfaced by `TrustDnsResolver::new`,
while kind-preserving and retry-free, is wrapped in a new `io::Error`
whose message prefixes the original with
`"error reading DNS system conf: "`. -/
theorem error_propagation_amended
    (osRead : Nat → Except IoError Config)
    (constructO : Config → Nat → Except Nat SharedResolver)
    (lookupO : SharedResolver → String → Except Nat (List IpAddr))
    (name : String) (g : Globals) (r : SharedResolver) :
    (∀ e, lookupO r name = Except.error e →
      TrustDnsResolver.resolve osRead constructO lookupO name
          (State.Ready r) g =
        PanicOr.value (Except.error (ResolveErr.lookup e), State.Ready r, g)) ∧
    (∀ cfg e, g.cache = some (Except.ok cfg) →
      constructO cfg g.constructCount = Except.error e →
      TrustDnsResolver.resolve osRead constructO lookupO name State.Init g =
        PanicOr.value (Except.error (ResolveErr.construct e), State.Init,
          ⟨g.cache, g.readCount, g.constructCount + 1⟩)) ∧
    (∀ e, g.cache = some (Except.error e) →
      (TrustDnsResolver.new osRead g).1 =
        Except.error ⟨e.kind, "error reading DNS system conf: " ++ e.msg⟩) := by
  refine ⟨?_, ?_, ?_⟩
  · intro e he
    rw [TrustDnsResolver.resolve, he]
  · intro cfg e hcache hce
    exact resolve_init_construct_error osRead constructO lookupO name g
      cfg e hcache hce
  · intro e hcache
    rw [TrustDnsResolver.new, get_system_conf_cached osRead g _ hcache]

/-- Witness for the amended C9: a failing lookup surfaces error `42`
unaltered; a failing construction surfaces error `10` unaltered; a
cached config error `boom` is surfaced by `new` with the wrapping
message. -/
theorem error_propagation_amended_witness :
    TrustDnsResolver.resolve goodRead constructGood lookupBad "example.com"
        (State.Ready 5) gCachedOk =
      PanicOr.value (Except.error (ResolveErr.lookup 42),
        State.Ready 5, gCachedOk) ∧
    TrustDnsResolver.resolve goodRead constructBad lookupGood "example.com"
        State.Init gCachedOk =
      PanicOr.value (Except.error (ResolveErr.construct 10), State.Init,
        ⟨some (Except.ok 7), 1, 1⟩) ∧
    (TrustDnsResolver.new badRead ⟨some (Except.error boomErr), 1, 0⟩).1 =
      Except.error ⟨2, "error reading DNS system conf: " ++ "boom"⟩ := by
  obtain ⟨h1, h2, h3⟩ :=
    error_propagation_amended goodRead constructGood lookupBad "example.com"
      gCachedOk 5
  refine ⟨h1 42 rfl, ?_, ?_⟩
  · exact (error_propagation_amended goodRead constructBad lookupGood
      "example.com" gCachedOk 5).2.1 7 10 rfl rfl
  · exact (error_propagation_amended badRead constructGood lookupGood
      "example.com" ⟨some (Except.error boomErr), 1, 0⟩ 5).2.2 boomErr rfl

/-- C10: `new_resolver`'s error branch is a panic: a `resolve` on an
`Init` adapter whose system-conf snapshot is (or recomputes to) an error
panics with the `expect` message instead of returning an error — a state
reachable by a successful `new`, then `reinitialize_system_conf`, then a
failing re-read on the first `resolve`. -/
theorem new_resolver_panics_on_config_error
    (osRead : Nat → Except IoError Config)
    (constructO : Config → Nat → Except Nat SharedResolver)
    (lookupO : SharedResolver → String → Except Nat (List IpAddr))
    (name : String) (g : Globals) :
    (∀ e, g.cache = some (Except.error e) →
      TrustDnsResolver.resolve osRead constructO lookupO name State.Init g =
        PanicOr.panicked newResolverPanicMsg) ∧
    (g.cache = none → ∀ c e, osRead g.readCount = Except.ok c →
      osRead (g.readCount + 1) = Except.error e →
      (TrustDnsResolver.new osRead g).1 = Except.ok ⟨State.Init⟩ ∧
      TrustDnsResolver.resolve osRead constructO lookupO name State.Init
          (reinitialize_system_conf (TrustDnsResolver.new osRead g).2) =
        PanicOr.panicked newResolverPanicMsg) := by
  constructor
  · intro e hcache
    rw [TrustDnsResolver.resolve, new_resolver,
      get_system_conf_cached osRead g _ hcache]
  · intro hnone c e hok herr
    have hget := get_system_conf_compute osRead g hnone
    rw [hok] at hget
    have hnew : TrustDnsResolver.new osRead g =
        (Except.ok ⟨State.Init⟩,
          (⟨some (Except.ok c), g.readCount + 1, g.constructCount⟩ : Globals)) := by
      rw [TrustDnsResolver.new, hget]
    refine ⟨by rw [hnew], ?_⟩
    rw [hnew]
    show TrustDnsResolver.resolve osRead constructO lookupO name State.Init
        (reinitialize_system_conf
          (⟨some (Except.ok c), g.readCount + 1, g.constructCount⟩ : Globals)) =
      PanicOr.panicked newResolverPanicMsg
    rw [TrustDnsResolver.resolve, new_resolver,
      get_system_conf_compute osRead _ rfl]
    have hread : osRead (reinitialize_system_conf
        (⟨some (Except.ok c), g.readCount + 1, g.constructCount⟩ : Globals)).readCount =
        Except.error e := herr
    rw [hread]

/-- Witness for C10: with an OS read whose first invocation succeeds and
whose second fails, `new` succeeds, and after `reinitialize_system_conf`
the first `resolve` on the still-`Init` adapter panics. -/
theorem new_resolver_panics_witness :
    (TrustDnsResolver.new flipRead gEmpty).1 = Except.ok ⟨State.Init⟩ ∧
    TrustDnsResolver.resolve flipRead constructGood lookupGood "example.com"
        State.Init (reinitialize_system_conf (TrustDnsResolver.new flipRead gEmpty).2) =
      PanicOr.panicked newResolverPanicMsg :=
  (new_resolver_panics_on_config_error flipRead constructGood lookupGood
    "example.com" gEmpty).2 rfl 7 boomErr rfl rfl

/-- C1: in every reachable interleaving of concurrent `resolve` calls,
a task in its network-lookup phase never holds the state lock; and in a
concrete run in which task `0`'s lookup blocks forever, task `1` still
resolves on the already-`Ready` adapter all the way to completion. -/
theorem lock_released_before_lookup :
    (∀ (constructO : Nat → Except Nat SharedResolver) (n : Nat)
      (s : CState n), Reach constructO (initState n) s →
      ∀ (i : Fin n) (h : SharedResolver),
        s.tasks i = TPhase.lookingUp h → s.lock ≠ some i) ∧
    (Reach okOracle (initState 2) blockedState ∧
      blockedState.tasks 0 = TPhase.lookingUp 5 ∧
      blockedState.tasks 1 = TPhase.finished 5 ∧
      blockedState.lock = none) := by
  constructor
  · intro constructO n s hr i h hli heq
    have hlocked := (inv_reach hr).1 i heq
    rw [hli] at hlocked
    cases hlocked
  · exact ⟨reach_blockedState, rfl, rfl, rfl⟩

/-- Witness for C1: the invariant applied to the concrete blocked run —
with task `0` mid-lookup, the lock is not held by it. -/
theorem lock_released_before_lookup_witness :
    blockedState.lock ≠ some 0 :=
  lock_released_before_lookup.1 okOracle 2 blockedState
    lock_released_before_lookup.2.1 0 5
    lock_released_before_lookup.2.2.1

/-- C2: under a construction routine that succeeds, any interleaving of
concurrent first-time `resolve` calls that runs every call to completion
performs exactly one construction, and every call observed the one
handle stored in the `Ready` cell. -/
theorem resolver_constructed_exactly_once
    (constructO : Nat → Except Nat SharedResolver)
    (hok : ∀ k, ∃ h, constructO k = Except.ok h)
    (n : Nat) (s : CState n)
    (hr : Reach constructO (initState n) s)
    (i0 : Fin n)
    (hall : ∀ i : Fin n, ∃ h, s.tasks i = TPhase.finished h) :
    s.constructCount = 1 ∧
    ∃ h : SharedResolver, s.cell = State.Ready h ∧
      ∀ (i : Fin n) (h' : SharedResolver),
        s.tasks i = TPhase.finished h' → h' = h := by
  obtain ⟨h0, hf0⟩ := hall i0
  have hobs := (inv_reach hr).2
  have hcell : s.cell = State.Ready h0 := hobs i0 h0 (Or.inr hf0)
  rcases countInv_reach hok hr with ⟨hinit, _⟩ | ⟨h1, hcell1, hcnt1⟩
  · rw [hinit] at hcell
    cases hcell
  · refine ⟨hcnt1, h0, hcell, ?_⟩
    intro i h' hf
    have hcell' := hobs i h' (Or.inr hf)
    rw [hcell] at hcell'
    injection hcell' with hh
    exact hh.symm

/-- Witness for C2: the complete solo run constructs exactly once and
its task observed the stored handle `5`. -/
theorem resolver_constructed_exactly_once_witness :
    soloFinished.constructCount = 1 ∧
    ∃ h : SharedResolver, soloFinished.cell = State.Ready h ∧
      ∀ (i : Fin 1) (h' : SharedResolver),
        soloFinished.tasks i = TPhase.finished h' → h' = h :=
  resolver_constructed_exactly_once okOracle (fun _ => ⟨5, rfl⟩) 1
    soloFinished reach_soloFinished 0
    (fun i => ⟨5, by rw [Fin.eq_zero i]; rfl⟩)

/-- C4: the cell starts `Init` — both at `initState` and on any adapter
`TrustDnsResolver::new` returns — and once `Ready h` it stays exactly
`Ready h` with no further construction, across single steps and hence
across any run; a `resolve` that finds `Ready` reuses the stored handle
and constructs nothing. -/
theorem state_cell_lifecycle :
    (∀ n : Nat, (initState n).cell = State.Init) ∧
    (∀ (osRead : Nat → Except IoError Config) (g : Globals)
      (a : TrustDnsResolver),
      (TrustDnsResolver.new osRead g).1 = Except.ok a →
        a.state = State.Init) ∧
    (∀ (constructO : Nat → Except Nat SharedResolver) (n : Nat)
      (s t : CState n), Step constructO s t →
      ∀ h, s.cell = State.Ready h →
        t.cell = State.Ready h ∧ t.constructCount = s.constructCount) ∧
    (∀ (constructO : Nat → Except Nat SharedResolver) (n : Nat)
      (s t : CState n), Relation.ReflTransGen (Step constructO) s t →
      ∀ h, s.cell = State.Ready h →
        t.cell = State.Ready h ∧ t.constructCount = s.constructCount) := by
  refine ⟨fun n => rfl, ?_, ?_, ?_⟩
  · intro osRead g a ha
    rcases hget : get_system_conf osRead g with ⟨r, g1⟩
    cases r with
    | error e =>
        rw [TrustDnsResolver.new, hget] at ha
        cases ha
    | ok c =>
        rw [TrustDnsResolver.new, hget] at ha
        cases ha
        rfl
  · intro constructO n s t hst h hc
    exact ready_stable_step hst h hc
  · intro constructO n s t hrt h hc
    induction hrt with
    | refl => exact ⟨hc, rfl⟩
    | tail _ hstep ih =>
        obtain ⟨hcell, hcnt⟩ := ih
        obtain ⟨hcell', hcnt'⟩ := ready_stable_step hstep h hcell
        exact ⟨hcell', by rw [hcnt', hcnt]⟩

/-- Witness for C4: a fresh adapter from `new` is `Init`; along the
concrete run suffix in which the cell is already `Ready 5`, it stays
`Ready 5` and the construction counter stays at `1`. -/
theorem state_cell_lifecycle_witness :
    (∀ a : TrustDnsResolver,
      (TrustDnsResolver.new goodRead gEmpty).1 = Except.ok a →
        a.state = State.Init) ∧
    (blockedState.cell = State.Ready 5 ∧
      blockedState.constructCount = duoLooking0.constructCount) :=
  ⟨fun a ha => state_cell_lifecycle.2.1 goodRead gEmpty a ha,
    state_cell_lifecycle.2.2.2 okOracle 2 duoLooking0 blockedState
      (Relation.ReflTransGen.tail
        (Relation.ReflTransGen.tail
          (Relation.ReflTransGen.tail Relation.ReflTransGen.refl
            (Step.acquire duoLooking0 1 rfl rfl))
          (Step.readyReuse duoLocked1 1 5 rfl rfl rfl))
        (Step.lookupDone duoLooking1 1 5 rfl))
      5 rfl⟩

end TrustDns
